import Mathlib

/-!
# Verification of the 40Hz-Harmonic-AI Tauri backend core

Shallow embedding of `src/gui/src-tauri/src/main.rs` (diagnostics runner,
preflight gate, backend gateway commands) and
`src/gui/src-tauri/src/window_manager.rs` (window registry, message router,
workflow executor, office-type commands).

Modelling conventions:
* Rust `f64` quantities that only feed comparisons are modelled as `ℚ`
  (the claims never depend on float rounding); the textual `{:.2}` number
  formatting inside human-readable messages is abstracted by `toString`.
* `HashMap` registries are modelled as association lists; iteration order of
  a Rust `HashMap` is unspecified, the list order is one determinization.
* `Uuid::new_v4()` is modelled as a draw from a fresh-name counter carried in
  the state (`uuidString`), capturing freshness of generated identifiers.
* The host toolkit (Tauri window building, lookup, emit, close) and the
  network (reqwest) are oracles passed in explicitly; an HTTP exchange is a
  value of `HttpResult` (transport error / response with status and body).
* `std::time::SystemTime::now()` is modelled by a `SysTime` value supplied
  by the environment: either a pre-epoch clock, on which
  `duration_since(UNIX_EPOCH)` errs and the source's `.unwrap()` panics
  (`run_diagnostics_cmd` returns `none`), or a post-epoch clock carrying
  the unwrapped duration in seconds.
-/

/-- Minimal model of `serde_json::Value`. -/
inductive Json where
  | null : Json
  | bool : Bool → Json
  | num : Int → Json
  | str : String → Json
  | arr : List Json → Json
  | obj : List (String × Json) → Json

/-- `value["key"]`: field lookup on an object, `null` otherwise
(serde_json's `Index` impl). -/
def Json.index (v : Json) (key : String) : Json :=
  match v with
  | .obj fields =>
    match fields.lookup key with
    | some w => w
    | none => .null
  | _ => .null

/-- `value.as_array().unwrap_or(&vec![])`. -/
def Json.asArrayOrEmpty (v : Json) : List Json :=
  match v with
  | .arr xs => xs
  | _ => []

/-- `value.as_str()` as used in the `filter_map` over model entries. -/
def Json.asStr (v : Json) : Option String :=
  match v with
  | .str s => some s
  | _ => none

/-- Outcome of one outbound HTTP exchange as seen by the caller of
`reqwest`: a transport-level error (timeout, connection refused, …) or a
response carrying whether the status code `is_success()` and a body.
The body is `none` when it cannot be parsed into the expected shape
(`response.json::<T>()` fails). -/
inductive HttpOutcome where
  | failed : String → HttpOutcome
  | response : Bool → Option Json → HttpOutcome

/-- `CheckResult` from `main.rs`. -/
structure CheckResult where
  passed : Bool
  message : String
  severity : String
  deriving DecidableEq, Repr

/-- `DiagnosticsResult` from `main.rs`; the `checks` HashMap is an
association list, the `f64` timestamp is the clock reading in seconds. -/
structure DiagnosticsResult where
  status : String
  checks : List (String × CheckResult)
  timestamp : Nat
  deriving DecidableEq, Repr

/-- `check_ram(min_free_gb)`: free-memory probe. The environment supplies
`sys.available_memory()` in bytes; `available_gb = bytes / 1_073_741_824`. -/
def check_ram (availableBytes : Nat) (minFreeGb : ℚ) : CheckResult :=
  let availableGb : ℚ := (availableBytes : ℚ) / 1073741824
  { passed := decide (availableGb ≥ minFreeGb)
    message := "Available RAM: " ++ toString availableGb ++ " GB (required: " ++
      toString minFreeGb ++ " GB)"
    severity := if availableGb ≥ minFreeGb then "info" else "error" }

/-- `check_disk(min_free_gb)`: simplified in the source, always passes. -/
def check_disk (minFreeGb : ℚ) : CheckResult :=
  { passed := true
    message := "Disk space check passed (>= " ++ toString minFreeGb ++ " GB)"
    severity := "info" }

/-- `check_ollama()`: local model-runtime reachability probe against
`http://127.0.0.1:11434/api/tags`. -/
def check_ollama (o : HttpOutcome) : CheckResult :=
  match o with
  | .response true _ =>
    { passed := true, message := "Ollama service is running", severity := "info" }
  | _ =>
    { passed := false
      message := "Ollama service not reachable at http://127.0.0.1:11434"
      severity := "error" }

/-- One required-model membership test: `model_names.iter().any(|m| m.contains(required))`,
Rust `str::contains` is substring containment. -/
def rustContains (m req : String) : Bool :=
  decide (req.toList <:+: m.toList)

/-- `check_models(required_models)`: required-model-presence probe. -/
def check_models (o : HttpOutcome) (required_models : List String) : CheckResult :=
  match o with
  | .response true body =>
    match body with
    | some data =>
      let models := (data.index "models").asArrayOrEmpty
      let model_names := models.filterMap (fun m => (m.index "name").asStr)
      let missing := required_models.filter
        (fun required => ¬ model_names.any (fun m => rustContains m required))
      if missing.isEmpty then
        { passed := true
          message := "All required models present: " ++ toString required_models
          severity := "info" }
      else
        { passed := false
          message := "Missing models: " ++ toString missing
          severity := "error" }
    | none =>
      { passed := false
        message := "Failed to parse Ollama models list"
        severity := "error" }
  | _ =>
    { passed := false
      message := "Cannot check models - Ollama not running"
      severity := "error" }

/-- `check_backend_services(base_url)`: backend reachability probe; note the
degraded `"warning"` severity on failure. -/
def check_backend_services (base_url : String) (o : HttpOutcome) : CheckResult :=
  match o with
  | .response true _ =>
    { passed := true, message := "Backend services are running", severity := "info" }
  | _ =>
    { passed := false
      message := "Backend services not reachable at " ++ base_url
      severity := "warning" }

/-- The overall-status reduction inside `run_diagnostics`:
`all_passed` / `has_errors` over the check values. -/
def computeStatus (cs : List CheckResult) : String :=
  let all_passed := cs.all (fun c => c.passed)
  let has_errors := cs.any (fun c => c.severity == "error")
  if all_passed then "OK" else if has_errors then "ERROR" else "WARNING"

/-- `AppState` from `main.rs` (the two `Mutex` cells flattened). -/
structure AppState where
  backend_base_url : String
  preflight_passed : Bool
  diagnostics : Option DiagnosticsResult

/-- The `AppState` constructed in `main()`. -/
def initialAppState : AppState :=
  { backend_base_url := "http://127.0.0.1:8000"
    preflight_passed := false
    diagnostics := none }

/-- Environment of one diagnostics sweep: what each probe observes. -/
structure DiagEnv where
  ramAvailableBytes : Nat
  ollamaResp : HttpOutcome
  modelsResp : HttpOutcome
  backendResp : HttpOutcome
  now : Nat

/-- The probe/aggregation/state-update body of the `run_diagnostics`
command, after the timestamp has been read successfully (`env.now` is the
unwrapped duration since the epoch). Returns the report and the updated
state; the clock read itself, with its panic path, is `run_diagnostics_cmd`
below. -/
def run_diagnostics (st : AppState) (env : DiagEnv) :
    Except String DiagnosticsResult × AppState :=
  let ram := check_ram env.ramAvailableBytes 2
  let disk := check_disk 5
  let ollama := check_ollama env.ollamaResp
  let models := check_models env.modelsResp ["deepseek-r1:14b", "qwen2.5-coder:7b"]
  let backend := check_backend_services st.backend_base_url env.backendResp
  let checks := [("ram", ram), ("disk", disk), ("ollama", ollama),
    ("models", models), ("backend", backend)]
  let status := computeStatus [ram, disk, ollama, models, backend]
  let result : DiagnosticsResult :=
    { status := status, checks := checks, timestamp := env.now }
  (Except.ok result,
    { st with preflight_passed := status == "OK", diagnostics := some result })

/-- `std::time::SystemTime::now()`: the clock may stand before the Unix
epoch or a number of whole seconds after it. -/
inductive SysTime where
  | preEpoch : SysTime
  | sinceEpoch : Nat → SysTime

/-- `now.duration_since(UNIX_EPOCH)`: a `SystemTimeError` exactly when the
clock is earlier than the epoch. -/
def duration_since_unix_epoch : SysTime → Except String Nat
  | .preEpoch => Except.error "SystemTimeError"
  | .sinceEpoch d => Except.ok d

/-- Environment of one diagnostics sweep including the raw clock. -/
structure DiagClockEnv where
  ramAvailableBytes : Nat
  ollamaResp : HttpOutcome
  modelsResp : HttpOutcome
  backendResp : HttpOutcome
  clock : SysTime

/-- The full `run_diagnostics` command including the timestamp read
`SystemTime::now().duration_since(UNIX_EPOCH).unwrap()`: on a pre-epoch
clock the `.unwrap()` panics, modelled as `none` (the command produces no
value at all, neither `Ok` nor `Err`). -/
def run_diagnostics_cmd (st : AppState) (env : DiagClockEnv) :
    Option (Except String DiagnosticsResult × AppState) :=
  match duration_since_unix_epoch env.clock with
  | .error _ => none
  | .ok now =>
    some (run_diagnostics st
      { ramAvailableBytes := env.ramAvailableBytes
        ollamaResp := env.ollamaResp
        modelsResp := env.modelsResp
        backendResp := env.backendResp
        now := now })

/-- `is_preflight_passed` command: pure read of the gate. -/
def is_preflight_passed (st : AppState) : Bool :=
  st.preflight_passed

/-! ## Backend gateway commands (`main.rs`)

Each feature command performs at most one HTTP exchange against the remote
backend.  The exchange's outcome is supplied as an oracle of type
`HttpTyped α`: a transport error, or a response with its `is_success()` flag,
its status text, and the result of `response.json::<α>()` (`Except.error e`
when deserialization fails with message `e`).  Each command returns its
result together with the list of backend URLs it actually contacted, which
makes "performs no network call" a provable statement. -/

/-- Typed HTTP exchange outcome for the gateway commands. -/
inductive HttpTyped (α : Type) where
  | failed : String → HttpTyped α
  | response : Bool → String → Except String α → HttpTyped α

/-- `EvaluateRequest` from `main.rs` (`f64` as `ℚ`). -/
structure EvaluateRequest where
  goal : String
  output : String
  rubric_version : String

/-- `EvaluateResponse` from `main.rs`. -/
structure EvaluateResponse where
  quality_score : ℚ
  delta_score : ℚ
  robust_pct : ℚ
  cache_hit : Bool
  time_ms : ℚ
  routing_path : String
  violations : List String

/-- `MutateRequest` from `main.rs`. -/
structure MutateRequest where
  goal : String
  current_workflow : String
  arm : Option String

/-- `MutateResponse` from `main.rs`. -/
structure MutateResponse where
  variant_id : String
  arm : String
  delta_score : ℚ
  novelty : ℚ
  workflow : String

/-- `BanditStatus` from `main.rs` (HashMaps as association lists). -/
structure BanditStatus where
  arm_counts : List (String × Int)
  arm_rewards : List (String × ℚ)
  total_pulls : Int

/-- `MemorySnapshot` from `main.rs`. -/
structure MemorySnapshot where
  id : String
  title : String
  note : String
  timestamp : ℚ

/-- `Position`, `WorkflowNode`, `WorkflowEdge`, `WorkflowDAG` from `main.rs`. -/
structure Position where
  x : ℚ
  y : ℚ

structure WorkflowNode where
  id : String
  node_type : String
  label : String
  position : Position

structure WorkflowEdge where
  from_ : String  -- `from` in the source; `from` is reserved in Lean
  to_ : String    -- `to` in the source; `to` is reserved in Lean
  label : Option String

structure WorkflowDAG where
  nodes : List WorkflowNode
  edges : List WorkflowEdge

/-- `TelemetryMetrics` from `main.rs`. -/
structure TelemetryMetrics where
  tokens_per_sec : ℚ
  delta_score : ℚ
  cache_hit_rate : ℚ
  robust_pct : ℚ
  memory_use_mb : ℚ
  module_status : List (String × String)

/-- `evaluate` command: gate check, then `POST {base}/evaluate`. -/
def evaluate (st : AppState) (net : HttpTyped EvaluateResponse)
    (_request : EvaluateRequest) : Except String EvaluateResponse × List String :=
  if ¬ st.preflight_passed then
    (Except.error "Preflight checks failed - run diagnostics first", [])
  else
    let url := st.backend_base_url ++ "/evaluate"
    match net with
    | .failed e => (Except.error ("Request failed: " ++ e), [url])
    | .response true _ (.ok v) => (Except.ok v, [url])
    | .response true _ (.error e) =>
      (Except.error ("Failed to parse response: " ++ e), [url])
    | .response false status _ =>
      (Except.error ("Backend error: " ++ status), [url])

/-- `mutate_workflow` command: gate check, then `POST {base}/mutate`;
every non-parsed outcome collapses to one error string. -/
def mutate_workflow (st : AppState) (net : HttpTyped MutateResponse)
    (_request : MutateRequest) : Except String MutateResponse × List String :=
  if ¬ st.preflight_passed then
    (Except.error "Preflight checks failed", [])
  else
    let url := st.backend_base_url ++ "/mutate"
    match net with
    | .response true _ (.ok v) => (Except.ok v, [url])
    | .response true _ (.error e) =>
      (Except.error ("Failed to parse response: " ++ e), [url])
    | _ => (Except.error "Mutation request failed", [url])

/-- `get_bandit_status` command: `GET {base}/bandit/status`, with no
preflight-gate check in the source. -/
def get_bandit_status (st : AppState) (net : HttpTyped BanditStatus) :
    Except String BanditStatus × List String :=
  let url := st.backend_base_url ++ "/bandit/status"
  match net with
  | .response true _ (.ok v) => (Except.ok v, [url])
  | .response true _ (.error e) =>
    (Except.error ("Failed to parse response: " ++ e), [url])
  | _ => (Except.error "Failed to get bandit status", [url])

/-- `create_memory_snapshot` command: `POST {base}/memory/snapshot`, with no
preflight-gate check in the source. -/
def create_memory_snapshot (st : AppState) (net : HttpTyped MemorySnapshot)
    (_title _content : String) : Except String MemorySnapshot × List String :=
  let url := st.backend_base_url ++ "/memory/snapshot"
  match net with
  | .response true _ (.ok v) => (Except.ok v, [url])
  | .response true _ (.error e) =>
    (Except.error ("Failed to parse response: " ++ e), [url])
  | _ => (Except.error "Failed to create memory snapshot", [url])

/-- `get_workflow_dag` command: `GET {base}/workflow/dag`, with no
preflight-gate check in the source. -/
def get_workflow_dag (st : AppState) (net : HttpTyped WorkflowDAG) :
    Except String WorkflowDAG × List String :=
  let url := st.backend_base_url ++ "/workflow/dag"
  match net with
  | .response true _ (.ok v) => (Except.ok v, [url])
  | .response true _ (.error e) =>
    (Except.error ("Failed to parse response: " ++ e), [url])
  | _ => (Except.error "Failed to get workflow DAG", [url])

/-- `get_telemetry_metrics` command: `GET {base}/telemetry/metrics`, with no
preflight-gate check in the source. -/
def get_telemetry_metrics (st : AppState) (net : HttpTyped TelemetryMetrics) :
    Except String TelemetryMetrics × List String :=
  let url := st.backend_base_url ++ "/telemetry/metrics"
  match net with
  | .response true _ (.ok v) => (Except.ok v, [url])
  | .response true _ (.error e) =>
    (Except.error ("Failed to parse response: " ++ e), [url])
  | _ => (Except.error "Failed to get telemetry metrics", [url])

/-! ## Window manager (`window_manager.rs`) -/

/-- The closed office-type (role) enumeration from `window_manager.rs`. -/
inductive OfficeType where
  | Orchestrator | Memory | Security
  | TradingOffice | CryptoOffice | TaxAdvisor | FinancialAdvisor | BankingOffice
  | LegalOffice | ComplianceOfficer | ContractAnalyst | IntellectualProperty
  | TravelPlanner | RestaurantConcierge | EventCoordinator | PersonalShopper
  | PhysicalTrainer | Nutritionist | SleepCoach | Psychologist | MedicalAdvisor
  | ContentCreator | VideoEditor | GraphicDesigner | MusicProducer
  | DevOpsEngineer | DataAnalyst | SecurityAnalyst | CloudArchitect
  | ResearchAnalyst | EducationAdvisor | LanguageTutor | SkillCoach
  | TarotReader | Astrologer | MeditationGuide | LifeCoach
  | KitchenManager | HomeAutomation | MaintenanceScheduler
  | QuantumComputing | EmergencyResponse
  deriving DecidableEq, Repr

/-- `OfficeType::to_string`: the canonical display name. -/
def OfficeType.to_string : OfficeType → String
  | .Orchestrator => "Orchestrator"
  | .Memory => "Memory Graph"
  | .Security => "Security Office"
  | .TradingOffice => "Trading Office"
  | .CryptoOffice => "Crypto Office"
  | .TaxAdvisor => "Tax Advisor"
  | .FinancialAdvisor => "Financial Advisor"
  | .BankingOffice => "Banking Office"
  | .LegalOffice => "Legal Office"
  | .ComplianceOfficer => "Compliance Officer"
  | .ContractAnalyst => "Contract Analyst"
  | .IntellectualProperty => "IP Office"
  | .TravelPlanner => "Travel Planner"
  | .RestaurantConcierge => "Restaurant Concierge"
  | .EventCoordinator => "Event Coordinator"
  | .PersonalShopper => "Personal Shopper"
  | .PhysicalTrainer => "Physical Trainer"
  | .Nutritionist => "Nutritionist"
  | .SleepCoach => "Sleep Coach"
  | .Psychologist => "Psychologist"
  | .MedicalAdvisor => "Medical Advisor"
  | .ContentCreator => "Content Creator"
  | .VideoEditor => "Video Editor"
  | .GraphicDesigner => "Graphic Designer"
  | .MusicProducer => "Music Producer"
  | .DevOpsEngineer => "DevOps Engineer"
  | .DataAnalyst => "Data Analyst"
  | .SecurityAnalyst => "Security Analyst"
  | .CloudArchitect => "Cloud Architect"
  | .ResearchAnalyst => "Research Analyst"
  | .EducationAdvisor => "Education Advisor"
  | .LanguageTutor => "Language Tutor"
  | .SkillCoach => "Skill Coach"
  | .TarotReader => "Tarot Reader"
  | .Astrologer => "Astrologer"
  | .MeditationGuide => "Meditation Guide"
  | .LifeCoach => "Life Coach"
  | .KitchenManager => "Kitchen Manager"
  | .HomeAutomation => "Home Automation"
  | .MaintenanceScheduler => "Maintenance Scheduler"
  | .QuantumComputing => "Quantum Computing"
  | .EmergencyResponse => "Emergency Response"

/-- The Rust variant identifier of an office type: what `{:?}` (Debug)
prints, and what serde's derived `Deserialize` matches a JSON string
against. -/
def OfficeType.variantName : OfficeType → String
  | .Orchestrator => "Orchestrator"
  | .Memory => "Memory"
  | .Security => "Security"
  | .TradingOffice => "TradingOffice"
  | .CryptoOffice => "CryptoOffice"
  | .TaxAdvisor => "TaxAdvisor"
  | .FinancialAdvisor => "FinancialAdvisor"
  | .BankingOffice => "BankingOffice"
  | .LegalOffice => "LegalOffice"
  | .ComplianceOfficer => "ComplianceOfficer"
  | .ContractAnalyst => "ContractAnalyst"
  | .IntellectualProperty => "IntellectualProperty"
  | .TravelPlanner => "TravelPlanner"
  | .RestaurantConcierge => "RestaurantConcierge"
  | .EventCoordinator => "EventCoordinator"
  | .PersonalShopper => "PersonalShopper"
  | .PhysicalTrainer => "PhysicalTrainer"
  | .Nutritionist => "Nutritionist"
  | .SleepCoach => "SleepCoach"
  | .Psychologist => "Psychologist"
  | .MedicalAdvisor => "MedicalAdvisor"
  | .ContentCreator => "ContentCreator"
  | .VideoEditor => "VideoEditor"
  | .GraphicDesigner => "GraphicDesigner"
  | .MusicProducer => "MusicProducer"
  | .DevOpsEngineer => "DevOpsEngineer"
  | .DataAnalyst => "DataAnalyst"
  | .SecurityAnalyst => "SecurityAnalyst"
  | .CloudArchitect => "CloudArchitect"
  | .ResearchAnalyst => "ResearchAnalyst"
  | .EducationAdvisor => "EducationAdvisor"
  | .LanguageTutor => "LanguageTutor"
  | .SkillCoach => "SkillCoach"
  | .TarotReader => "TarotReader"
  | .Astrologer => "Astrologer"
  | .MeditationGuide => "MeditationGuide"
  | .LifeCoach => "LifeCoach"
  | .KitchenManager => "KitchenManager"
  | .HomeAutomation => "HomeAutomation"
  | .MaintenanceScheduler => "MaintenanceScheduler"
  | .QuantumComputing => "QuantumComputing"
  | .EmergencyResponse => "EmergencyResponse"

/-- Every office type, for quantifier-free enumeration. -/
def OfficeType.allValues : List OfficeType :=
  [.Orchestrator, .Memory, .Security,
   .TradingOffice, .CryptoOffice, .TaxAdvisor, .FinancialAdvisor, .BankingOffice,
   .LegalOffice, .ComplianceOfficer, .ContractAnalyst, .IntellectualProperty,
   .TravelPlanner, .RestaurantConcierge, .EventCoordinator, .PersonalShopper,
   .PhysicalTrainer, .Nutritionist, .SleepCoach, .Psychologist, .MedicalAdvisor,
   .ContentCreator, .VideoEditor, .GraphicDesigner, .MusicProducer,
   .DevOpsEngineer, .DataAnalyst, .SecurityAnalyst, .CloudArchitect,
   .ResearchAnalyst, .EducationAdvisor, .LanguageTutor, .SkillCoach,
   .TarotReader, .Astrologer, .MeditationGuide, .LifeCoach,
   .KitchenManager, .HomeAutomation, .MaintenanceScheduler,
   .QuantumComputing, .EmergencyResponse]

/-- The inverse of `variantName`: serde's derived unit-variant matcher.
Returns `none` when the decoded JSON string is no variant identifier. -/
def OfficeType.fromName (s : String) : Option OfficeType :=
  OfficeType.allValues.find? (fun t => t.variantName == s)

/-- `OfficeType::get_default_size`. -/
def OfficeType.get_default_size : OfficeType → Nat × Nat
  | .Orchestrator => (1400, 900)
  | .Memory => (1200, 800)
  | .TradingOffice | .CryptoOffice => (1600, 900)
  | .QuantumComputing => (1500, 850)
  | _ => (1024, 768)

/-- Rust `str::to_lowercase` on the ASCII strings it is applied to here. -/
def rustToLowercase (s : String) : String :=
  String.mk (s.toList.map Char.toLower)

/-- `OfficeType::get_url`; the default branch lowercases the whole
formatted string (the Debug name appended to the already-lowercase base). -/
def OfficeType.get_url (t : OfficeType) : String :=
  let base_url := "http://localhost:1420"
  match t with
  | .Orchestrator => base_url ++ "/"
  | .Memory => base_url ++ "/memory"
  | .Security => base_url ++ "/security"
  | _ => rustToLowercase (base_url ++ "/office/" ++ t.variantName)

/-- `OfficeWindow` from `window_manager.rs` (metadata record of one live
window; `u64` TTL as `Nat`). -/
structure OfficeWindow where
  id : String
  office_type : OfficeType
  title : String
  position : Option (Int × Int)
  size : Nat × Nat
  memory_consent : Bool
  shared_memory_ttl : Nat
  deriving DecidableEq, Repr

/-- The host-toolkit capability set consumed by the window manager, as an
oracle: the outcome of `WindowBuilder::build` for given id/title/url/size,
whether `app_handle.get_window(id)` finds a live toolkit window, and the
outcomes of `window.emit(event, payload)` and `window.close()`. -/
structure Toolkit where
  build : String → String → String → Nat × Nat → Except String Unit
  hasWindow : String → Bool
  emitResult : String → String → Json → Except String Unit
  closeResult : String → Except String Unit

/-- The mutable state of `WindowManager`: the `windows` HashMap as an
association list, plus the fresh-name counter that models `Uuid::new_v4`. -/
structure WMState where
  windows : List (String × OfficeWindow)
  nextUuid : Nat

/-- The state `WindowManager::new` starts from. -/
def WMState.initial : WMState :=
  { windows := [], nextUuid := 0 }

/-- Model of `Uuid::new_v4().to_string()` for the n-th draw. -/
def uuidString (n : Nat) : String :=
  "uuid-" ++ toString n

/-- HashMap insert: replaces any binding of the key, appends otherwise. -/
def insertAssoc (m : List (String × OfficeWindow)) (k : String)
    (v : OfficeWindow) : List (String × OfficeWindow) :=
  m.filter (fun p => p.1 ≠ k) ++ [(k, v)]

/-- `WindowManager::setup_window_ipc`: registers two event listeners and
returns `Ok(())`; it has no failure path and no registry effect. -/
def setup_window_ipc (_window_id : String) (_office_type : OfficeType) :
    Except String Unit :=
  Except.ok ()

/-- `WindowManager::create_office_window`: draws a fresh id, asks the toolkit
to build the window with the role's title, url and default size, and inserts
the metadata record only when the build succeeded. -/
def create_office_window (tk : Toolkit) (st : WMState) (office_type : OfficeType)
    (memory_consent : Bool) (shared_memory_ttl : Option Nat) :
    Except String String × WMState :=
  let window_id := "office_" ++ uuidString st.nextUuid
  let title := "Unity — " ++ office_type.to_string
  let size := office_type.get_default_size
  let url := office_type.get_url
  match tk.build window_id title url size with
  | .error e => (Except.error ("Failed to create window: " ++ e), st)
  | .ok _ =>
    let office_window : OfficeWindow :=
      { id := window_id
        office_type := office_type
        title := title
        position := none
        size := size
        memory_consent := memory_consent
        shared_memory_ttl := shared_memory_ttl.getD 3600 }
    match setup_window_ipc window_id office_type with
    | .error e => (Except.error e,
        { windows := insertAssoc st.windows window_id office_window
          nextUuid := st.nextUuid + 1 })
    | .ok _ => (Except.ok window_id,
        { windows := insertAssoc st.windows window_id office_window
          nextUuid := st.nextUuid + 1 })

/-- `WindowManager::close_office_window`: removes the record from the map
first, then closes the toolkit window if one is live under that id. -/
def close_office_window (tk : Toolkit) (st : WMState) (window_id : String) :
    Except String Unit × WMState :=
  let st' : WMState :=
    { st with windows := st.windows.filter (fun p => p.1 ≠ window_id) }
  if tk.hasWindow window_id then
    match tk.closeResult window_id with
    | .error e => (Except.error ("Failed to close window: " ++ e), st')
    | .ok _ => (Except.ok (), st')
  else (Except.ok (), st')

/-- `WindowManager::get_active_offices`: snapshot of the registry values. -/
def get_active_offices (st : WMState) : List OfficeWindow :=
  st.windows.map (fun p => p.2)

/-- The delivery loop of `send_to_office`: walks the registry entries,
emits `office_message` to each live window of the requested role, and — via
the `?` operator in the source — returns the first emit failure immediately.
The second component records the ids actually emitted to (attempted
deliveries), in order. -/
def sendLoop (tk : Toolkit) (office_type : OfficeType) (message : Json) :
    List (String × OfficeWindow) → Except String Unit × List String
  | [] => (Except.ok (), [])
  | (window_id, ow) :: rest =>
    if ow.office_type = office_type then
      if tk.hasWindow window_id then
        match tk.emitResult window_id "office_message" message with
        | .error e => (Except.error ("Failed to send message: " ++ e), [window_id])
        | .ok _ =>
          let (r, tr) := sendLoop tk office_type message rest
          (r, window_id :: tr)
      else sendLoop tk office_type message rest
    else sendLoop tk office_type message rest

/-- `WindowManager::send_to_office`. -/
def send_to_office (tk : Toolkit) (st : WMState) (office_type : OfficeType)
    (message : Json) : Except String Unit × List String :=
  sendLoop tk office_type message st.windows

/-- The delivery loop of `broadcast_to_all`: like `sendLoop` but over every
registry entry, emitting `system_broadcast`. -/
def broadcastLoop (tk : Toolkit) (message : Json) :
    List (String × OfficeWindow) → Except String Unit × List String
  | [] => (Except.ok (), [])
  | (window_id, _) :: rest =>
    if tk.hasWindow window_id then
      match tk.emitResult window_id "system_broadcast" message with
      | .error e => (Except.error ("Failed to broadcast: " ++ e), [window_id])
      | .ok _ =>
        let (r, tr) := broadcastLoop tk message rest
        (r, window_id :: tr)
    else broadcastLoop tk message rest

/-- `WindowManager::broadcast_to_all`. -/
def broadcast_to_all (tk : Toolkit) (st : WMState) (message : Json) :
    Except String Unit × List String :=
  broadcastLoop tk message st.windows

/-- `WorkflowAction` from `window_manager.rs`. -/
inductive WorkflowAction where
  | OpenOffice : OfficeType → WorkflowAction
  | SendMessage : OfficeType → Json → WorkflowAction
  | WaitForResponse : Nat → WorkflowAction
  | CloseOffice : String → WorkflowAction

/-- `WorkflowStep` from `window_manager.rs`. -/
structure WorkflowStep where
  action : WorkflowAction
  description : String

/-- `WorkflowDefinition` from `window_manager.rs`. -/
structure WorkflowDefinition where
  name : String
  steps : List WorkflowStep

/-- One step body of `orchestrate_workflow`'s loop. -/
def execStep (tk : Toolkit) (st : WMState) (a : WorkflowAction) :
    Except String Unit × WMState :=
  match a with
  | .OpenOffice office_type =>
    match create_office_window tk st office_type true none with
    | (.error e, st') => (Except.error e, st')
    | (.ok _, st') => (Except.ok (), st')
  | .SendMessage office_type message =>
    match (send_to_office tk st office_type message).1 with
    | .error e => (Except.error e, st)
    | .ok _ => (Except.ok (), st)
  | .WaitForResponse _ => (Except.ok (), st)
  | .CloseOffice window_id => close_office_window tk st window_id

/-- The step loop of `orchestrate_workflow`: strictly in order, the `?`
operator aborting at the first failing step with that step's error and the
state as the failing step left it. -/
def runSteps (tk : Toolkit) (st : WMState) :
    List WorkflowStep → Except String Unit × WMState
  | [] => (Except.ok (), st)
  | step :: rest =>
    match execStep tk st step.action with
    | (.error e, st') => (Except.error e, st')
    | (.ok _, st') => runSteps tk st' rest

/-- `WindowManager::orchestrate_workflow`: draws the run id up front, runs
the steps, and returns the id only when every step succeeded. -/
def orchestrate_workflow (tk : Toolkit) (st : WMState)
    (workflow : WorkflowDefinition) : Except String String × WMState :=
  let workflow_id := uuidString st.nextUuid
  let st1 : WMState := { st with nextUuid := st.nextUuid + 1 }
  match runSteps tk st1 workflow.steps with
  | (.error e, st') => (Except.error e, st')
  | (.ok _, st') => (Except.ok workflow_id, st')

/-! ## Tauri command wrappers (`window_manager.rs`)

`create_office` and `send_office_message` receive the office type as a raw
string and run it through `serde_json::from_str::<OfficeType>` applied to the
quoted document `"\"{s}\""`.  serde_json first decodes the document as a JSON
string literal (processing escape sequences, rejecting raw control
characters, and requiring the value to fill the document up to trailing
whitespace) and then matches the decoded text against the variant
identifiers.  `jsonStringBody` models that string-literal decoder; the exact
serde error messages are abstracted to short tags, only the
`"Invalid office type: "` prefix added by the command is kept verbatim. -/

/-- Value of one hex digit, both cases, as in JSON `\uXXXX` escapes. -/
def hexDigit (c : Char) : Option Nat :=
  if '0' ≤ c ∧ c ≤ '9' then some (c.toNat - 48)
  else if 'a' ≤ c ∧ c ≤ 'f' then some (c.toNat - 87)
  else if 'A' ≤ c ∧ c ≤ 'F' then some (c.toNat - 55)
  else none

/-- JSON insignificant whitespace. -/
def isJsonWs (c : Char) : Bool :=
  c = ' ' ∨ c = '\t' ∨ c = '\n' ∨ c = '\r'

/-- Four hex digits at the head of the input: their value and the rest. -/
def hex4 : List Char → Option (Nat × List Char)
  | h1 :: h2 :: h3 :: h4 :: rest =>
    match hexDigit h1, hexDigit h2, hexDigit h3, hexDigit h4 with
    | some a, some b, some c, some d =>
      some (((a * 16 + b) * 16 + c) * 16 + d, rest)
    | _, _, _, _ => none
  | _ => none

/-- Decode the escape sequence following a backslash (serde_json semantics):
`\" \\ \/ \b \f \n \r \t \uXXXX`, with surrogate pairs combined and lone
surrogates rejected. Returns the decoded character and the remaining
input. -/
def jsonEscapeDecode : List Char → Option (Char × List Char)
  | [] => none
  | e :: rest =>
    if e = '"' then some ('"', rest)
    else if e = '\\' then some ('\\', rest)
    else if e = '/' then some ('/', rest)
    else if e = 'b' then some (Char.ofNat 8, rest)
    else if e = 'f' then some (Char.ofNat 12, rest)
    else if e = 'n' then some ('\n', rest)
    else if e = 'r' then some ('\r', rest)
    else if e = 't' then some ('\t', rest)
    else if e = 'u' then
      match hex4 rest with
      | none => none
      | some (code, rest2) =>
        if 0xD800 ≤ code ∧ code ≤ 0xDBFF then
          match rest2 with
          | b1 :: b2 :: rest3 =>
            if b1 = '\\' ∧ b2 = 'u' then
              match hex4 rest3 with
              | none => none
              | some (lo, rest4) =>
                if 0xDC00 ≤ lo ∧ lo ≤ 0xDFFF then
                  some (Char.ofNat
                    (0x10000 + (code - 0xD800) * 0x400 + (lo - 0xDC00)), rest4)
                else none
            else none
          | _ => none
        else if 0xDC00 ≤ code ∧ code ≤ 0xDFFF then none
        else some (Char.ofNat code, rest2)
    else none

/-- Strict JSON string-literal body decoder (serde_json semantics), with an
explicit fuel bound for structural recursion: consumes characters up to the
closing quote, decoding escapes via `jsonEscapeDecode`, rejecting raw
control characters below 0x20, and requiring everything after the closing
quote to be whitespace (serde's end-of-document check). Every step consumes
at least one character, so fuel equal to the input length never runs out. -/
def jsonStringBodyF : Nat → List Char → Option (List Char)
  | 0, _ => none
  | _ + 1, [] => none
  | fuel + 1, c :: rest =>
    if c = '"' then
      if rest.all isJsonWs then some [] else none
    else if c = '\\' then
      match jsonEscapeDecode rest with
      | none => none
      | some (ch, rest2) => (jsonStringBodyF fuel rest2).map (fun l => ch :: l)
    else if c.toNat < 32 then none
    else (jsonStringBodyF fuel rest).map (fun l => c :: l)

/-- The decoder at its canonical fuel. -/
def jsonStringBody (input : List Char) : Option (List Char) :=
  jsonStringBodyF input.length input

/-- A whole JSON document that must be a string literal: an opening quote
followed by the body. -/
def parseJsonStringDoc (input : List Char) : Option (List Char) :=
  match input with
  | '"' :: rest => jsonStringBody rest
  | _ => none

/-- `serde_json::from_str::<OfficeType>(&format!("\"{}\"", office_type))`:
decode the quoted document, then match the decoded text against the variant
identifiers. -/
def officeTypeFromInput (office_type : String) : Except String OfficeType :=
  match parseJsonStringDoc ('"' :: (office_type.toList ++ ['"'])) with
  | none => Except.error "serde parse error"
  | some chars =>
    match OfficeType.fromName (String.mk chars) with
    | none => Except.error ("unknown variant " ++ String.mk chars)
    | some t => Except.ok t

/-- `create_office` command: parse the office-type string, then create. -/
def create_office (tk : Toolkit) (st : WMState) (office_type : String)
    (memory_consent : Bool) : Except String String × WMState :=
  match officeTypeFromInput office_type with
  | .error e => (Except.error ("Invalid office type: " ++ e), st)
  | .ok t => create_office_window tk st t memory_consent none

/-- `close_office` command. -/
def close_office (tk : Toolkit) (st : WMState) (window_id : String) :
    Except String Unit × WMState :=
  close_office_window tk st window_id

/-- `get_offices` command. -/
def get_offices (st : WMState) : Except String (List OfficeWindow) :=
  Except.ok (get_active_offices st)

/-- `send_office_message` command: parse the office-type string, then route;
the second component again lists the window ids emitted to. -/
def send_office_message (tk : Toolkit) (st : WMState) (office_type : String)
    (message : Json) : Except String Unit × List String :=
  match officeTypeFromInput office_type with
  | .error e => (Except.error ("Invalid office type: " ++ e), [])
  | .ok t => send_to_office tk st t message

/-- `broadcast_message` command. -/
def broadcast_message (tk : Toolkit) (st : WMState) (message : Json) :
    Except String Unit × List String :=
  broadcast_to_all tk st message

/-! ## Shared fixtures and observation helpers -/

/-- The checks of a diagnostics command result (empty on the error side,
which `run_diagnostics` never takes). -/
def reportChecks (r : Except String DiagnosticsResult) :
    List (String × CheckResult) :=
  match r with
  | .ok rep => rep.checks
  | .error _ => []

/-- Ids of the currently-live windows of one role, in registry order: the
recipients `send_to_office` walks. -/
def liveRoleIds (tk : Toolkit) (ot : OfficeType)
    (ws : List (String × OfficeWindow)) : List String :=
  (ws.filter (fun p => decide (p.2.office_type = ot) && tk.hasWindow p.1)).map
    (fun p => p.1)

/-- Ids of all currently-live windows, in registry order: the recipients
`broadcast_to_all` walks. -/
def liveIds (tk : Toolkit) (ws : List (String × OfficeWindow)) : List String :=
  (ws.filter (fun p => tk.hasWindow p.1)).map (fun p => p.1)

/-- A toolkit on which every capability succeeds. -/
def tkOk : Toolkit :=
  { build := fun _ _ _ _ => Except.ok ()
    hasWindow := fun _ => true
    emitResult := fun _ _ _ => Except.ok ()
    closeResult := fun _ => Except.ok () }

/-- A toolkit that holds no live window. -/
def tkAbsent : Toolkit := { tkOk with hasWindow := fun _ => false }

/-- A toolkit whose window construction fails. -/
def tkBuildFail : Toolkit :=
  { tkOk with build := fun _ _ _ _ => Except.error "boom" }

/-- A toolkit whose window destruction fails. -/
def tkCloseFail : Toolkit :=
  { tkOk with closeResult := fun _ => Except.error "boom" }

/-- A toolkit whose event emission fails. -/
def tkEmitFail : Toolkit :=
  { tkOk with emitResult := fun _ _ _ => Except.error "boom" }

/-- A toolkit whose event emission fails only for the second fixture
window. -/
def tkEmitFailSecond : Toolkit :=
  { tkOk with emitResult := fun id _ _ =>
      if id = "office_uuid-1" then Except.error "boom" else Except.ok () }

/-- A registry record as `create_office_window` builds it for the
Orchestrator role. -/
def owOne : OfficeWindow :=
  { id := "office_uuid-0"
    office_type := OfficeType.Orchestrator
    title := "Unity — Orchestrator"
    position := none
    size := (1400, 900)
    memory_consent := true
    shared_memory_ttl := 3600 }

/-- A registry holding one Orchestrator window. -/
def stOne : WMState := { windows := [("office_uuid-0", owOne)], nextUuid := 1 }

/-- A second Orchestrator record. -/
def owTwo : OfficeWindow := { owOne with id := "office_uuid-1" }

/-- A registry holding two Orchestrator windows. -/
def stTwo : WMState :=
  { windows := [("office_uuid-0", owOne), ("office_uuid-1", owTwo)]
    nextUuid := 2 }

/-! ## Theorems -/

/-- The overall-status reduction, characterized: `OK` iff every check
passed, else `ERROR` iff some check (passed or not) has severity `error`,
else `WARNING`. -/
theorem computeStatus_spec (cs : List CheckResult) :
    (computeStatus cs = "OK" ↔ cs.all (fun c => c.passed) = true) ∧
    (computeStatus cs = "ERROR" ↔
      (cs.all (fun c => c.passed) = false ∧
       cs.any (fun c => c.severity == "error") = true)) ∧
    (computeStatus cs = "WARNING" ↔
      (cs.all (fun c => c.passed) = false ∧
       cs.any (fun c => c.severity == "error") = false)) := by
  unfold computeStatus
  rcases h1 : cs.all (fun c => c.passed) <;>
    rcases h2 : cs.any (fun c => c.severity == "error") <;>
      simp [h1, h2]

/-- C1: for every environment (hence every combination of the five probe
results), the report produced by `run_diagnostics` has status `"OK"` iff
every check passed; otherwise `"ERROR"` iff any check has severity
`"error"`, else `"WARNING"`. -/
theorem C1_overall_status_rule (st : AppState) (env : DiagEnv) :
    ∃ rep, (run_diagnostics st env).1 = Except.ok rep ∧
      (rep.status = "OK" ↔ rep.checks.all (fun p => p.2.passed) = true) ∧
      (rep.status = "ERROR" ↔
        (rep.checks.all (fun p => p.2.passed) = false ∧
         rep.checks.any (fun p => p.2.severity == "error") = true)) ∧
      (rep.status = "WARNING" ↔
        (rep.checks.all (fun p => p.2.passed) = false ∧
         rep.checks.any (fun p => p.2.severity == "error") = false)) := by
  refine ⟨_, rfl, ?_⟩
  have h := computeStatus_spec
    [check_ram env.ramAvailableBytes 2, check_disk 5, check_ollama env.ollamaResp,
     check_models env.modelsResp ["deepseek-r1:14b", "qwen2.5-coder:7b"],
     check_backend_services st.backend_base_url env.backendResp]
  simpa [run_diagnostics, List.all_cons, List.any_cons] using h

/-- C8: the preflight gate starts false with no stored report, and after any
diagnostics run the gate equals (report status == "OK") and the report is
stored, both recomputed wholesale from the fresh report. -/
theorem C8_gate_wholesale (st : AppState) (env : DiagEnv) :
    initialAppState.preflight_passed = false ∧
    initialAppState.diagnostics = none ∧
    ∃ rep, (run_diagnostics st env).1 = Except.ok rep ∧
      (run_diagnostics st env).2.preflight_passed = (rep.status == "OK") ∧
      (run_diagnostics st env).2.diagnostics = some rep := by
  exact ⟨rfl, rfl, _, rfl, rfl, rfl⟩

/-- A failed RAM check carries severity `"error"`. -/
theorem check_ram_failed (bytes : Nat) (min : ℚ) :
    (check_ram bytes min).passed = false → (check_ram bytes min).severity = "error" := by
  simp only [check_ram]
  split
  · intro h; simp_all
  · intro _; rfl

/-- A failed Ollama-reachability check carries severity `"error"`. -/
theorem check_ollama_failed (o : HttpOutcome) :
    (check_ollama o).passed = false → (check_ollama o).severity = "error" := by
  rcases o with e | ⟨b, body⟩
  · exact fun _ => rfl
  · cases b
    · exact fun _ => rfl
    · intro h; exact absurd h (by simp [check_ollama])

/-- A failed required-models check carries severity `"error"`. -/
theorem check_models_failed (o : HttpOutcome) (reqs : List String) :
    (check_models o reqs).passed = false → (check_models o reqs).severity = "error" := by
  rcases o with e | ⟨b, body⟩
  · exact fun _ => rfl
  · cases b
    · exact fun _ => rfl
    · rcases body with _ | data
      · exact fun _ => rfl
      · simp only [check_models]
        split
        · intro h; simp_all
        · intro _; rfl

/-- A failed backend-reachability check degrades to severity `"warning"`. -/
theorem check_backend_failed (u : String) (o : HttpOutcome) :
    (check_backend_services u o).passed = false →
    (check_backend_services u o).severity = "warning" := by
  rcases o with e | ⟨b, body⟩
  · exact fun _ => rfl
  · cases b
    · exact fun _ => rfl
    · intro h; exact absurd h (by simp [check_backend_services])

/-- The post-unwrap body of the diagnostics command always returns `Ok`,
and every failed check carries severity `"error"` except the
backend-reachability check, which degrades to `"warning"`. -/
theorem run_diagnostics_ok_severities (st : AppState) (env : DiagEnv) :
    (run_diagnostics st env).1.isOk = true ∧
    ∀ p ∈ reportChecks (run_diagnostics st env).1, p.2.passed = false →
      (p.1 = "backend" ∧ p.2.severity = "warning") ∨
      (p.1 ≠ "backend" ∧ p.2.severity = "error") := by
  refine ⟨rfl, ?_⟩
  intro p hp hfail
  simp only [reportChecks, run_diagnostics, List.mem_cons, List.mem_singleton,
    List.not_mem_nil, or_false] at hp
  rcases hp with h | h | h | h | h <;> subst h
  · exact Or.inr ⟨by simp, check_ram_failed _ _ hfail⟩
  · exact absurd hfail (by simp [check_disk])
  · exact Or.inr ⟨by simp, check_ollama_failed _ hfail⟩
  · exact Or.inr ⟨by simp, check_models_failed _ _ hfail⟩
  · exact Or.inl ⟨rfl, check_backend_failed _ _ hfail⟩

/-- C9 counterexample: on a system clock before the Unix epoch the
`duration_since(UNIX_EPOCH).unwrap()` in `run_diagnostics` panics — the
command produces no result at all — so the claim that it returns `Ok` and
never panics for every environment state is false on the code. -/
theorem C9_counterexample :
    run_diagnostics_cmd initialAppState
      ⟨0, HttpOutcome.failed "x", HttpOutcome.failed "x",
       HttpOutcome.failed "x", SysTime.preEpoch⟩ = none :=
  rfl

/-- C9 amended: for every combination of probe outcomes and every
environment whose clock is at or after the Unix epoch, `run_diagnostics`
returns `Ok` with a report in which every failed check carries severity
`"error"`, except the backend-reachability check which degrades to
`"warning"`; only a pre-epoch clock makes the timestamp unwrap panic. -/
theorem C9_diagnostics_post_epoch (st : AppState) (env : DiagClockEnv)
    (d : Nat) (h : env.clock = SysTime.sinceEpoch d) :
    ∃ out, run_diagnostics_cmd st env = some out ∧
      out.1.isOk = true ∧
      ∀ p ∈ reportChecks out.1, p.2.passed = false →
        (p.1 = "backend" ∧ p.2.severity = "warning") ∨
        (p.1 ≠ "backend" ∧ p.2.severity = "error") := by
  have hmain := run_diagnostics_ok_severities st
    ⟨env.ramAvailableBytes, env.ollamaResp, env.modelsResp, env.backendResp, d⟩
  refine ⟨_, ?_, hmain.1, hmain.2⟩
  simp [run_diagnostics_cmd, duration_since_unix_epoch, h]

/-- Witness for the amended C9 at an epoch clock with every network probe
failing. -/
theorem C9_diagnostics_post_epoch_witness :
    ∃ out, run_diagnostics_cmd initialAppState
        ⟨0, HttpOutcome.failed "boom", HttpOutcome.failed "boom",
         HttpOutcome.failed "boom", SysTime.sinceEpoch 0⟩ = some out ∧
      out.1.isOk = true ∧
      ∀ p ∈ reportChecks out.1, p.2.passed = false →
        (p.1 = "backend" ∧ p.2.severity = "warning") ∨
        (p.1 ≠ "backend" ∧ p.2.severity = "error") :=
  C9_diagnostics_post_epoch initialAppState
    ⟨0, HttpOutcome.failed "boom", HttpOutcome.failed "boom",
     HttpOutcome.failed "boom", SysTime.sinceEpoch 0⟩ 0 rfl

/-- C2 counterexample: with the preflight gate false (fresh startup state),
`get_bandit_status` still performs its network call and returns its own
error, not a preflight-not-satisfied error — the claim that every
backend-dependent operation reads the gate first is false on the code. -/
theorem C2_counterexample :
    initialAppState.preflight_passed = false ∧
    (get_bandit_status initialAppState (HttpTyped.failed "connection refused")).2 =
      ["http://127.0.0.1:8000/bandit/status"] ∧
    (get_bandit_status initialAppState (HttpTyped.failed "connection refused")).1 =
      Except.error "Failed to get bandit status" :=
  ⟨rfl, rfl, rfl⟩

/-- C2 amended: only `evaluate` and `mutate_workflow` read the preflight
gate and fail fast with a distinguished error and no network call when it is
false; `get_bandit_status`, `create_memory_snapshot`, `get_workflow_dag` and
`get_telemetry_metrics` contact the backend unconditionally, whatever the
gate. -/
theorem C2_preflight_gating (st : AppState)
    (n1 : HttpTyped EvaluateResponse) (n2 : HttpTyped MutateResponse)
    (n3 : HttpTyped BanditStatus) (n4 : HttpTyped MemorySnapshot)
    (n5 : HttpTyped WorkflowDAG) (n6 : HttpTyped TelemetryMetrics)
    (req1 : EvaluateRequest) (req2 : MutateRequest) (title content : String) :
    (st.preflight_passed = false →
      evaluate st n1 req1 =
        (Except.error "Preflight checks failed - run diagnostics first", []) ∧
      mutate_workflow st n2 req2 = (Except.error "Preflight checks failed", [])) ∧
    (get_bandit_status st n3).2 = [st.backend_base_url ++ "/bandit/status"] ∧
    (create_memory_snapshot st n4 title content).2 =
      [st.backend_base_url ++ "/memory/snapshot"] ∧
    (get_workflow_dag st n5).2 = [st.backend_base_url ++ "/workflow/dag"] ∧
    (get_telemetry_metrics st n6).2 =
      [st.backend_base_url ++ "/telemetry/metrics"] := by
  refine ⟨fun h => ⟨by simp [evaluate, h], by simp [mutate_workflow, h]⟩,
    ?_, ?_, ?_, ?_⟩
  · cases n3 with
    | failed e => rfl
    | response b t body => cases b <;> cases body <;> rfl
  · cases n4 with
    | failed e => rfl
    | response b t body => cases b <;> cases body <;> rfl
  · cases n5 with
    | failed e => rfl
    | response b t body => cases b <;> cases body <;> rfl
  · cases n6 with
    | failed e => rfl
    | response b t body => cases b <;> cases body <;> rfl

/-- Witness for the amended C2 at the startup state and concrete transport
failures. -/
theorem C2_preflight_gating_witness :
    (evaluate initialAppState (HttpTyped.failed "x") ⟨"g", "o", "r"⟩ =
      (Except.error "Preflight checks failed - run diagnostics first", []) ∧
     mutate_workflow initialAppState (HttpTyped.failed "x") ⟨"g", "w", none⟩ =
      (Except.error "Preflight checks failed", [])) ∧
    (get_bandit_status initialAppState (HttpTyped.failed "x")).2 =
      ["http://127.0.0.1:8000" ++ "/bandit/status"] := by
  have h := C2_preflight_gating initialAppState (HttpTyped.failed "x")
    (HttpTyped.failed "x") (HttpTyped.failed "x") (HttpTyped.failed "x")
    (HttpTyped.failed "x") (HttpTyped.failed "x") ⟨"g", "o", "r"⟩
    ⟨"g", "w", none⟩ "t" "c"
  exact ⟨h.1 rfl, h.2.1⟩

/-- C5 counterexample: closing an identifier absent from the registry (and
unknown to the toolkit) returns plain success, not a WindowNotFound error,
while leaving the registry unchanged. -/
theorem C5_counterexample :
    (∀ q ∈ WMState.initial.windows, q.1 ≠ "nonexistent") ∧
    close_office_window tkAbsent WMState.initial "nonexistent" =
      (Except.ok (), WMState.initial) :=
  ⟨by decide, rfl⟩

/-- C5 amended: `close_office_window` on an identifier not present in the
registry leaves the registry (and the `list()` snapshot) unchanged, and —
when the toolkit holds no window under that identifier either — returns
success; the source has no WindowNotFound error path in `close`. -/
theorem C5_close_unknown (tk : Toolkit) (st : WMState) (id : String)
    (h : ∀ q ∈ st.windows, q.1 ≠ id) :
    (close_office_window tk st id).2 = st ∧
    get_active_offices (close_office_window tk st id).2 = get_active_offices st ∧
    (tk.hasWindow id = false →
      close_office_window tk st id = (Except.ok (), st)) := by
  have hf : st.windows.filter (fun p => !decide (p.1 = id)) = st.windows :=
    List.filter_eq_self.2 (fun q hq => by simpa using h q hq)
  have hstate : (close_office_window tk st id).2 = st := by
    by_cases hh : tk.hasWindow id
    · rcases hc : tk.closeResult id with e | u <;>
        simp [close_office_window, hh, hc, hf]
    · simp [close_office_window, hh, hf]
  refine ⟨hstate, by rw [hstate], fun hh => ?_⟩
  simp [close_office_window, hh, hf]

/-- Witness for the amended C5 at the empty registry. -/
theorem C5_close_unknown_witness :
    close_office_window tkAbsent WMState.initial "nonexistent" =
      (Except.ok (), WMState.initial) ∧
    get_active_offices (close_office_window tkAbsent WMState.initial
      "nonexistent").2 = get_active_offices WMState.initial := by
  have h := C5_close_unknown tkAbsent WMState.initial "nonexistent" (by decide)
  exact ⟨h.2.2 rfl, h.2.1⟩

/-- C6 counterexample: the id is present, toolkit destruction fails, and yet
the registry record is gone afterwards — the source removes the record
before attempting destruction, so nothing is retained on failure. -/
theorem C6_counterexample :
    stOne.windows.lookup "office_uuid-0" = some owOne ∧
    close_office_window tkCloseFail stOne "office_uuid-0" =
      (Except.error "Failed to close window: boom",
       { windows := [], nextUuid := 1 }) :=
  ⟨rfl, rfl⟩

/-- C6 amended: `close_office_window` removes the registry record first and
then asks the toolkit to destroy the window; when destruction fails the
error is surfaced but the record has already been removed, never retained. -/
theorem C6_close_removes_before_destroy (tk : Toolkit) (st : WMState)
    (id : String) :
    ((close_office_window tk st id).2).windows =
      st.windows.filter (fun p => p.1 ≠ id) ∧
    (∀ e, tk.hasWindow id = true → tk.closeResult id = Except.error e →
      close_office_window tk st id =
        (Except.error ("Failed to close window: " ++ e),
         { st with windows := st.windows.filter (fun p => p.1 ≠ id) })) := by
  constructor
  · by_cases hh : tk.hasWindow id
    · rcases hc : tk.closeResult id with e | u <;>
        simp [close_office_window, hh, hc]
    · simp [close_office_window, hh]
  · intro e hh hc
    simp [close_office_window, hh, hc]

/-- Witness for the amended C6: one registered window, failing destruction. -/
theorem C6_close_removes_before_destroy_witness :
    close_office_window tkCloseFail stOne "office_uuid-0" =
      (Except.error ("Failed to close window: " ++ "boom"),
       { stOne with
          windows := stOne.windows.filter (fun p => p.1 ≠ "office_uuid-0") }) :=
  (C6_close_removes_before_destroy tkCloseFail stOne "office_uuid-0").2
    "boom" rfl rfl

/-- C7: `create_office_window` draws a fresh identifier, asks the toolkit to
materialize the window with the role's default size and resource locator,
and inserts the record — with the requested role and consent, and TTL
defaulting to 3600 seconds — only on toolkit success; on toolkit failure it
returns the error and the registry is unchanged. -/
theorem C7_create_window (tk : Toolkit) (st : WMState) (ot : OfficeType)
    (consent : Bool) (ttl : Option Nat) :
    (∀ e, tk.build ("office_" ++ uuidString st.nextUuid)
        ("Unity — " ++ ot.to_string) ot.get_url ot.get_default_size =
        Except.error e →
      create_office_window tk st ot consent ttl =
        (Except.error ("Failed to create window: " ++ e), st)) ∧
    (tk.build ("office_" ++ uuidString st.nextUuid)
        ("Unity — " ++ ot.to_string) ot.get_url ot.get_default_size =
        Except.ok () →
      create_office_window tk st ot consent ttl =
        (Except.ok ("office_" ++ uuidString st.nextUuid),
         { windows := insertAssoc st.windows ("office_" ++ uuidString st.nextUuid)
             { id := "office_" ++ uuidString st.nextUuid
               office_type := ot
               title := "Unity — " ++ ot.to_string
               position := none
               size := ot.get_default_size
               memory_consent := consent
               shared_memory_ttl := ttl.getD 3600 }
           nextUuid := st.nextUuid + 1 })) := by
  constructor
  · intro e h; simp [create_office_window, h]
  · intro h; simp [create_office_window, setup_window_ipc, h]

/-- Witness for C7: a failing and a succeeding toolkit at the empty
registry. -/
theorem C7_create_window_witness :
    create_office_window tkBuildFail WMState.initial OfficeType.Orchestrator
      false none = (Except.error "Failed to create window: boom", WMState.initial) ∧
    create_office_window tkOk WMState.initial OfficeType.Orchestrator
      true none =
      (Except.ok "office_uuid-0",
       { windows := insertAssoc WMState.initial.windows "office_uuid-0"
           { id := "office_uuid-0"
             office_type := OfficeType.Orchestrator
             title := "Unity — Orchestrator"
             position := none
             size := OfficeType.Orchestrator.get_default_size
             memory_consent := true
             shared_memory_ttl := 3600 }
         nextUuid := 1 }) :=
  ⟨(C7_create_window tkBuildFail WMState.initial OfficeType.Orchestrator
      false none).1 "boom" rfl,
   (C7_create_window tkOk WMState.initial OfficeType.Orchestrator
      true none).2 rfl⟩

/-- When every live recipient of the role accepts the emit, `sendLoop`
delivers to exactly the live windows of that role, in order. -/
theorem sendLoop_all_ok (tk : Toolkit) (ot : OfficeType) (msg : Json)
    (ws : List (String × OfficeWindow)) :
    (∀ id ∈ liveRoleIds tk ot ws,
      tk.emitResult id "office_message" msg = Except.ok ()) →
    sendLoop tk ot msg ws = (Except.ok (), liveRoleIds tk ot ws) := by
  induction ws with
  | nil => intro _; rfl
  | cons a t ih =>
    intro h
    rcases a with ⟨wid, ow⟩
    by_cases h1 : ow.office_type = ot
    · by_cases h2 : tk.hasWindow wid = true
      · have hcons : liveRoleIds tk ot ((wid, ow) :: t) =
            wid :: liveRoleIds tk ot t := by
          simp [liveRoleIds, List.filter_cons, h1, h2]
        rw [hcons] at h
        have he := h wid (List.mem_cons_self _ _)
        have ih2 := ih (fun id hid => h id (List.mem_cons_of_mem _ hid))
        simp [sendLoop, h1, h2, he, ih2, hcons]
      · have hcons : liveRoleIds tk ot ((wid, ow) :: t) =
            liveRoleIds tk ot t := by
          simp [liveRoleIds, List.filter_cons, h1, h2]
        rw [hcons] at h
        simp [sendLoop, h1, h2, ih h, hcons]
    · have hcons : liveRoleIds tk ot ((wid, ow) :: t) =
          liveRoleIds tk ot t := by
        simp [liveRoleIds, List.filter_cons, h1]
      rw [hcons] at h
      simp [sendLoop, h1, ih h, hcons]

/-- When the walk reaches its first rejecting recipient — after any number
of successful deliveries — `sendLoop` aborts there: the attempted
deliveries are exactly the successful prefix plus the failing recipient,
and that single failure is the result. -/
theorem sendLoop_fail_at (tk : Toolkit) (ot : OfficeType) (msg : Json)
    (ws : List (String × OfficeWindow)) :
    ∀ pre w rest e, liveRoleIds tk ot ws = pre ++ w :: rest →
      (∀ id ∈ pre, tk.emitResult id "office_message" msg = Except.ok ()) →
      tk.emitResult w "office_message" msg = Except.error e →
      sendLoop tk ot msg ws =
        (Except.error ("Failed to send message: " ++ e), pre ++ [w]) := by
  induction ws with
  | nil =>
    intro pre w rest e hlive _ _
    exact absurd hlive (by simp [liveRoleIds])
  | cons a t ih =>
    intro pre w rest e hlive hpre he
    rcases a with ⟨wid, ow⟩
    by_cases h1 : ow.office_type = ot
    · by_cases h2 : tk.hasWindow wid = true
      · have hcons : liveRoleIds tk ot ((wid, ow) :: t) =
            wid :: liveRoleIds tk ot t := by
          simp [liveRoleIds, List.filter_cons, h1, h2]
        rw [hcons] at hlive
        cases pre with
        | nil =>
          simp only [List.nil_append] at hlive ⊢
          have hw : wid = w := (List.cons_eq_cons.mp hlive).1
          subst hw
          simp [sendLoop, h1, h2, he]
        | cons p pre2 =>
          simp only [List.cons_append] at hlive
          obtain ⟨hw, hlive2⟩ := List.cons_eq_cons.mp hlive
          subst hw
          have hok := hpre wid (List.mem_cons_self _ _)
          have ih2 := ih pre2 w rest e hlive2
            (fun id hid => hpre id (List.mem_cons_of_mem _ hid)) he
          simp [sendLoop, h1, h2, hok, ih2]
      · have hcons : liveRoleIds tk ot ((wid, ow) :: t) =
            liveRoleIds tk ot t := by
          simp [liveRoleIds, List.filter_cons, h1, h2]
        rw [hcons] at hlive
        simpa [sendLoop, h1, h2] using ih pre w rest e hlive hpre he
    · have hcons : liveRoleIds tk ot ((wid, ow) :: t) =
          liveRoleIds tk ot t := by
        simp [liveRoleIds, List.filter_cons, h1]
      rw [hcons] at hlive
      simpa [sendLoop, h1] using ih pre w rest e hlive hpre he

/-- When every live window accepts the emit, `broadcastLoop` delivers to
exactly the live windows, in order. -/
theorem broadcastLoop_all_ok (tk : Toolkit) (msg : Json)
    (ws : List (String × OfficeWindow)) :
    (∀ id ∈ liveIds tk ws,
      tk.emitResult id "system_broadcast" msg = Except.ok ()) →
    broadcastLoop tk msg ws = (Except.ok (), liveIds tk ws) := by
  induction ws with
  | nil => intro _; rfl
  | cons a t ih =>
    intro h
    rcases a with ⟨wid, ow⟩
    by_cases h2 : tk.hasWindow wid = true
    · have hcons : liveIds tk ((wid, ow) :: t) = wid :: liveIds tk t := by
        simp [liveIds, List.filter_cons, h2]
      rw [hcons] at h
      have he := h wid (List.mem_cons_self _ _)
      have ih2 := ih (fun id hid => h id (List.mem_cons_of_mem _ hid))
      simp [broadcastLoop, h2, he, ih2, hcons]
    · have hcons : liveIds tk ((wid, ow) :: t) = liveIds tk t := by
        simp [liveIds, List.filter_cons, h2]
      rw [hcons] at h
      simp [broadcastLoop, h2, ih h, hcons]

/-- When the walk reaches its first rejecting window — after any number of
successful deliveries — `broadcastLoop` aborts there with that failure. -/
theorem broadcastLoop_fail_at (tk : Toolkit) (msg : Json)
    (ws : List (String × OfficeWindow)) :
    ∀ pre w rest e, liveIds tk ws = pre ++ w :: rest →
      (∀ id ∈ pre, tk.emitResult id "system_broadcast" msg = Except.ok ()) →
      tk.emitResult w "system_broadcast" msg = Except.error e →
      broadcastLoop tk msg ws =
        (Except.error ("Failed to broadcast: " ++ e), pre ++ [w]) := by
  induction ws with
  | nil =>
    intro pre w rest e hlive _ _
    exact absurd hlive (by simp [liveIds])
  | cons a t ih =>
    intro pre w rest e hlive hpre he
    rcases a with ⟨wid, ow⟩
    by_cases h2 : tk.hasWindow wid = true
    · have hcons : liveIds tk ((wid, ow) :: t) = wid :: liveIds tk t := by
        simp [liveIds, List.filter_cons, h2]
      rw [hcons] at hlive
      cases pre with
      | nil =>
        simp only [List.nil_append] at hlive ⊢
        have hw : wid = w := (List.cons_eq_cons.mp hlive).1
        subst hw
        simp [broadcastLoop, h2, he]
      | cons p pre2 =>
        simp only [List.cons_append] at hlive
        obtain ⟨hw, hlive2⟩ := List.cons_eq_cons.mp hlive
        subst hw
        have hok := hpre wid (List.mem_cons_self _ _)
        have ih2 := ih pre2 w rest e hlive2
          (fun id hid => hpre id (List.mem_cons_of_mem _ hid)) he
        simp [broadcastLoop, h2, hok, ih2]
    · have hcons : liveIds tk ((wid, ow) :: t) = liveIds tk t := by
        simp [liveIds, List.filter_cons, h2]
      rw [hcons] at hlive
      simpa [broadcastLoop, h2] using ih pre w rest e hlive hpre he

/-- C4 counterexample: two live Orchestrator windows and a toolkit whose
emits fail — the first failure aborts the loop, so only one delivery is
attempted (not all recipients) and the returned error is that single
failure, not an aggregate. -/
theorem C4_counterexample :
    liveRoleIds tkEmitFail OfficeType.Orchestrator stTwo.windows =
      ["office_uuid-0", "office_uuid-1"] ∧
    send_to_office tkEmitFail stTwo OfficeType.Orchestrator Json.null =
      (Except.error ("Failed to send message: boom"), ["office_uuid-0"]) :=
  ⟨rfl, rfl⟩

/-- C4 amended: `send_to_office` and `broadcast_to_all` walk the live
recipients in registry order; zero recipients is a success with no
deliveries; when every emit succeeds all recipients are delivered to; but
the first emit failure — anywhere in the walk — aborts it: the attempted
deliveries are exactly the successful prefix plus the failing recipient,
and that single failure is returned (not an aggregate of all failures). -/
theorem C4_router_delivery (tk : Toolkit) (st : WMState) (ot : OfficeType)
    (msg : Json) :
    (liveRoleIds tk ot st.windows = [] →
      send_to_office tk st ot msg = (Except.ok (), [])) ∧
    ((∀ id ∈ liveRoleIds tk ot st.windows,
        tk.emitResult id "office_message" msg = Except.ok ()) →
      send_to_office tk st ot msg =
        (Except.ok (), liveRoleIds tk ot st.windows)) ∧
    (∀ pre w rest e, liveRoleIds tk ot st.windows = pre ++ w :: rest →
      (∀ id ∈ pre, tk.emitResult id "office_message" msg = Except.ok ()) →
      tk.emitResult w "office_message" msg = Except.error e →
      send_to_office tk st ot msg =
        (Except.error ("Failed to send message: " ++ e), pre ++ [w])) ∧
    (liveIds tk st.windows = [] →
      broadcast_to_all tk st msg = (Except.ok (), [])) ∧
    ((∀ id ∈ liveIds tk st.windows,
        tk.emitResult id "system_broadcast" msg = Except.ok ()) →
      broadcast_to_all tk st msg = (Except.ok (), liveIds tk st.windows)) ∧
    (∀ pre w rest e, liveIds tk st.windows = pre ++ w :: rest →
      (∀ id ∈ pre, tk.emitResult id "system_broadcast" msg = Except.ok ()) →
      tk.emitResult w "system_broadcast" msg = Except.error e →
      broadcast_to_all tk st msg =
        (Except.error ("Failed to broadcast: " ++ e), pre ++ [w])) := by
  refine ⟨?_, ?_, ?_, ?_, ?_, ?_⟩
  · intro hz
    have h := sendLoop_all_ok tk ot msg st.windows
      (fun id hid => absurd (hz ▸ hid) (List.not_mem_nil id))
    rw [hz] at h
    exact h
  · exact fun h => sendLoop_all_ok tk ot msg st.windows h
  · exact fun pre w rest e h1 h2 h3 =>
      sendLoop_fail_at tk ot msg st.windows pre w rest e h1 h2 h3
  · intro hz
    have h := broadcastLoop_all_ok tk msg st.windows
      (fun id hid => absurd (hz ▸ hid) (List.not_mem_nil id))
    rw [hz] at h
    exact h
  · exact fun h => broadcastLoop_all_ok tk msg st.windows h
  · exact fun pre w rest e h1 h2 h3 =>
      broadcastLoop_fail_at tk msg st.windows pre w rest e h1 h2 h3

/-- Witness for the amended C4: full delivery on an all-ok toolkit; an abort
after one successful delivery when only the second recipient's emit fails;
and an immediate abort for a broadcast whose first emit fails. -/
theorem C4_router_delivery_witness :
    send_to_office tkOk stTwo OfficeType.Orchestrator Json.null =
      (Except.ok (), liveRoleIds tkOk OfficeType.Orchestrator stTwo.windows) ∧
    send_to_office tkEmitFailSecond stTwo OfficeType.Orchestrator Json.null =
      (Except.error ("Failed to send message: " ++ "boom"),
       ["office_uuid-0"] ++ ["office_uuid-1"]) ∧
    broadcast_to_all tkEmitFail stTwo Json.null =
      (Except.error ("Failed to broadcast: " ++ "boom"),
       [] ++ ["office_uuid-0"]) := by
  refine ⟨(C4_router_delivery tkOk stTwo OfficeType.Orchestrator
      Json.null).2.1 (fun id _ => rfl), ?_, ?_⟩
  · exact (C4_router_delivery tkEmitFailSecond stTwo OfficeType.Orchestrator
      Json.null).2.2.1 ["office_uuid-0"] "office_uuid-1" [] "boom" rfl
      (by intro id hid; rcases List.mem_singleton.mp hid with rfl; rfl) rfl
  · exact (C4_router_delivery tkEmitFail stTwo OfficeType.Orchestrator
      Json.null).2.2.2.2.2 [] "office_uuid-0" ["office_uuid-1"] "boom" rfl
      (by intro id hid; cases hid) rfl

/-- C3: the workflow executor runs steps strictly in order — the first step
returning an error aborts the remaining steps and the run returns that error
with the state exactly as the failing step left it (no rollback: windows
already opened stay); a run identifier is returned only when every step
succeeded; an `OpenOffice` step behaves exactly like `create_office_window`
with consent `true` and the default TTL (`none`, hence 3600). -/
theorem C3_workflow_executor (tk : Toolkit) (st : WMState)
    (wf : WorkflowDefinition) :
    (∀ s ot,
      (execStep tk s (WorkflowAction.OpenOffice ot)).2 =
        (create_office_window tk s ot true none).2 ∧
      ((execStep tk s (WorkflowAction.OpenOffice ot)).1 = Except.ok () ↔
        (create_office_window tk s ot true none).1.isOk = true) ∧
      (∀ e, (execStep tk s (WorkflowAction.OpenOffice ot)).1 = Except.error e ↔
        (create_office_window tk s ot true none).1 = Except.error e)) ∧
    (∀ s step rest e s', execStep tk s step.action = (Except.error e, s') →
      runSteps tk s (step :: rest) = (Except.error e, s')) ∧
    (∀ s step rest s', execStep tk s step.action = (Except.ok (), s') →
      runSteps tk s (step :: rest) = runSteps tk s' rest) ∧
    (∀ x s', orchestrate_workflow tk st wf = (Except.ok x, s') →
      x = uuidString st.nextUuid ∧
      (runSteps tk { st with nextUuid := st.nextUuid + 1 } wf.steps).1 =
        Except.ok ()) ∧
    (∀ e s', orchestrate_workflow tk st wf = (Except.error e, s') →
      runSteps tk { st with nextUuid := st.nextUuid + 1 } wf.steps =
        (Except.error e, s')) := by
  refine ⟨?_, ?_, ?_, ?_, ?_⟩
  · intro s ot
    rcases hc : create_office_window tk s ot true none with ⟨r, s'⟩
    cases r <;> simp [execStep, hc, Except.isOk, Except.toBool]
  · intro s step rest e s' h
    simp [runSteps, h]
  · intro s step rest s' h
    simp [runSteps, h]
  · intro x s' h
    rcases hr : runSteps tk { st with nextUuid := st.nextUuid + 1 } wf.steps
      with ⟨r, s''⟩
    simp only [orchestrate_workflow, hr] at h
    cases r with
    | error e => simp at h
    | ok u =>
      simp at h
      exact ⟨h.1.symm, rfl⟩
  · intro e s' h
    rcases hr : runSteps tk { st with nextUuid := st.nextUuid + 1 } wf.steps
      with ⟨r, s''⟩
    simp only [orchestrate_workflow, hr] at h
    cases r with
    | error e2 =>
      simp at h
      rw [h.1, h.2]
    | ok u => simp at h

/-- Witness for C3: a three-step workflow whose second step (a message
delivery) fails aborts with that error and keeps the window opened in step
one; a one-step workflow on a healthy toolkit returns the drawn run id. -/
theorem C3_workflow_executor_witness :
    runSteps tkEmitFail
      { WMState.initial with nextUuid := WMState.initial.nextUuid + 1 }
      [⟨WorkflowAction.OpenOffice OfficeType.Orchestrator, "open"⟩,
       ⟨WorkflowAction.SendMessage OfficeType.Orchestrator Json.null, "send"⟩,
       ⟨WorkflowAction.CloseOffice "x", "close"⟩] =
      (Except.error "Failed to send message: boom",
       { windows := [("office_uuid-1", owTwo)], nextUuid := 2 }) ∧
    ("uuid-0" = uuidString WMState.initial.nextUuid ∧
     (runSteps tkOk
       { WMState.initial with nextUuid := WMState.initial.nextUuid + 1 }
       [⟨WorkflowAction.OpenOffice OfficeType.Orchestrator, "open"⟩]).1 =
       Except.ok ()) ∧
    (execStep tkOk WMState.initial
      (WorkflowAction.OpenOffice OfficeType.Orchestrator)).2 =
      (create_office_window tkOk WMState.initial OfficeType.Orchestrator
        true none).2 := by
  refine ⟨?_, ?_, ?_⟩
  · exact (C3_workflow_executor tkEmitFail WMState.initial
      ⟨"w", [⟨WorkflowAction.OpenOffice OfficeType.Orchestrator, "open"⟩,
             ⟨WorkflowAction.SendMessage OfficeType.Orchestrator Json.null, "send"⟩,
             ⟨WorkflowAction.CloseOffice "x", "close"⟩]⟩).2.2.2.2
      "Failed to send message: boom"
      { windows := [("office_uuid-1", owTwo)], nextUuid := 2 } rfl
  · exact (C3_workflow_executor tkOk WMState.initial
      ⟨"w", [⟨WorkflowAction.OpenOffice OfficeType.Orchestrator, "open"⟩]⟩).2.2.2.1
      "uuid-0" { windows := [("office_uuid-1", owTwo)], nextUuid := 2 } rfl
  · exact ((C3_workflow_executor tkOk WMState.initial ⟨"w", []⟩).1
      WMState.initial OfficeType.Orchestrator).1

/-- Unfolding step of the decoder on an ordinary character (no quote, no
backslash). -/
theorem jsonStringBodyF_cons_plain (fuel : Nat) (c : Char) (rest : List Char)
    (hc2 : c ≠ '"') (hc1 : c ≠ '\\') :
    jsonStringBodyF (fuel + 1) (c :: rest) =
      if c.toNat < 32 then none
      else (jsonStringBodyF fuel rest).map (fun l => c :: l) := by
  rw [jsonStringBodyF]
  rw [if_neg hc2, if_neg hc1]

/-- On backslash-free input followed by the closing quote and with enough
fuel, the decoder yields the input verbatim when the input holds neither a
double quote (which would close the literal early and leave the appended
quote as non-whitespace trailing content) nor a raw control character
(which strict JSON rejects); otherwise it fails. -/
theorem jsonStringBodyF_noesc (l : List Char) :
    ∀ fuel, l.length < fuel →
    (∀ c ∈ l, c ≠ '\\') →
    jsonStringBodyF fuel (l ++ ['"']) =
      if ∀ c ∈ l, c ≠ '"' ∧ 32 ≤ c.toNat then some l else none := by
  induction l with
  | nil =>
    intro fuel hf _
    cases fuel with
    | zero => omega
    | succ f =>
      rw [if_pos (by intro c hc; cases hc)]
      rw [jsonStringBodyF.eq_def]
      simp [isJsonWs]
  | cons c t ih =>
    intro fuel hf h
    have hc1 := h c (List.mem_cons_self _ _)
    have ht := fun x hx => h x (List.mem_cons_of_mem _ hx)
    cases fuel with
    | zero => omega
    | succ f =>
      by_cases hq : c = '"'
      · subst hq
        have hall : ((t ++ ['"']).all isJsonWs) = false := by
          simp [List.all_append, show isJsonWs '"' = false from rfl]
        rw [if_neg (show ¬ (∀ x ∈ '"' :: t, x ≠ '"' ∧ 32 ≤ x.toNat) from
          fun hP => (hP '"' (List.mem_cons_self _ _)).1 rfl)]
        rw [List.cons_append, jsonStringBodyF.eq_def]
        simp [hall]
      · rw [List.cons_append,
          jsonStringBodyF_cons_plain f c (t ++ ['"']) hq hc1,
          ih f (by simp at hf; omega) ht]
        by_cases h3 : c.toNat < 32
        · rw [if_pos h3, if_neg]
          intro hP
          exact absurd (hP c (List.mem_cons_self _ _)).2 (by omega)
        · have h4 : 32 ≤ c.toNat := by omega
          rw [if_neg h3]
          by_cases h5 : ∀ x ∈ t, x ≠ '"' ∧ 32 ≤ x.toNat
          · have hcons : ∀ x ∈ c :: t, x ≠ '"' ∧ 32 ≤ x.toNat := by
              intro x hx
              rcases List.mem_cons.mp hx with rfl | hx2
              · exact ⟨hq, h4⟩
              · exact h5 x hx2
            rw [if_pos h5, if_pos hcons]
            rfl
          · rw [if_neg h5, if_neg]
            · rfl
            · intro hP
              exact h5 (fun x hx => hP x (List.mem_cons_of_mem _ hx))

/-- The backslash-free behavior at the canonical fuel. -/
theorem jsonStringBody_noesc (l : List Char)
    (h : ∀ c ∈ l, c ≠ '\\') :
    jsonStringBody (l ++ ['"']) =
      if ∀ c ∈ l, c ≠ '"' ∧ 32 ≤ c.toNat then some l else none := by
  rw [jsonStringBody]
  exact jsonStringBodyF_noesc l (l ++ ['"']).length (by simp) h

/-- A backslash-free input string that is no variant identifier makes the
office-type deserialization fail: either it decodes to itself and matches
no variant, or a contained quote or control character already makes the
parse fail. -/
theorem officeTypeFromInput_noBackslash (s : String)
    (h : ∀ c ∈ s.toList, c ≠ '\\')
    (hn : OfficeType.fromName s = none) :
    ∃ e, officeTypeFromInput s = Except.error e := by
  have hms : String.mk s.toList = s := by cases s; rfl
  unfold officeTypeFromInput
  simp only [parseJsonStringDoc]
  rw [jsonStringBody_noesc s.toList h]
  by_cases hall : ∀ c ∈ s.toList, c ≠ '"' ∧ 32 ≤ c.toNat
  · rw [if_pos hall]
    simp only [hms, hn]
    exact ⟨_, rfl⟩
  · rw [if_neg hall]
    exact ⟨_, rfl⟩

/-- C10 counterexample: the input `Orchestrator` is not a variant name
of the enumeration, yet `create_office` accepts it (serde decodes the JSON
escape to `Orchestrator`) and creates a window. -/
theorem C10_counterexample :
    OfficeType.fromName "\\u004Frchestrator" = none ∧
    create_office tkOk WMState.initial "\\u004Frchestrator" true =
      (Except.ok "office_uuid-0", stOne) ∧
    stOne.windows ≠ WMState.initial.windows :=
  ⟨rfl, rfl, by decide⟩

/-- C10 amended: for every input string free of backslashes that is not a
variant identifier — including strings containing double quotes or control
characters, on which serde's parse fails — `create_office` and
`send_office_message` return an `Invalid office type` error, leave the
registry unchanged, create no window and deliver no message; strings
containing backslash escape sequences are decoded first and may be
accepted. -/
theorem C10_invalid_office_type (tk : Toolkit) (st : WMState) (s : String)
    (consent : Bool) (msg : Json)
    (h : ∀ c ∈ s.toList, c ≠ '\\')
    (hn : OfficeType.fromName s = none) :
    (∃ m, create_office tk st s consent =
      (Except.error ("Invalid office type: " ++ m), st)) ∧
    (∃ m, send_office_message tk st s msg =
      (Except.error ("Invalid office type: " ++ m), [])) := by
  obtain ⟨e, he⟩ := officeTypeFromInput_noBackslash s h hn
  exact ⟨⟨e, by simp [create_office, he]⟩,
         ⟨e, by simp [send_office_message, he]⟩⟩

/-- Witness for the amended C10 at the display name `"Trading Office"`
(not the variant identifier `"TradingOffice"`) and at a quote-containing
string. -/
theorem C10_invalid_office_type_witness :
    (∃ m, create_office tkOk WMState.initial "Trading Office" true =
      (Except.error ("Invalid office type: " ++ m), WMState.initial)) ∧
    (∃ m, send_office_message tkOk WMState.initial "Trading Office" Json.null =
      (Except.error ("Invalid office type: " ++ m), [])) ∧
    (∃ m, create_office tkOk WMState.initial "Memory\"x" true =
      (Except.error ("Invalid office type: " ++ m), WMState.initial)) := by
  have h1 := C10_invalid_office_type tkOk WMState.initial "Trading Office"
    true Json.null (by decide) rfl
  have h2 := C10_invalid_office_type tkOk WMState.initial "Memory\"x"
    true Json.null (by decide) rfl
  exact ⟨h1.1, h1.2, h2.1⟩

/-- Witness for C1 at a concrete environment. -/
theorem C1_overall_status_rule_witness :
    ∃ rep, (run_diagnostics initialAppState
        ⟨0, HttpOutcome.failed "x", HttpOutcome.failed "x",
         HttpOutcome.failed "x", 0⟩).1 = Except.ok rep ∧
      (rep.status = "OK" ↔ rep.checks.all (fun p => p.2.passed) = true) ∧
      (rep.status = "ERROR" ↔
        (rep.checks.all (fun p => p.2.passed) = false ∧
         rep.checks.any (fun p => p.2.severity == "error") = true)) ∧
      (rep.status = "WARNING" ↔
        (rep.checks.all (fun p => p.2.passed) = false ∧
         rep.checks.any (fun p => p.2.severity == "error") = false)) :=
  C1_overall_status_rule initialAppState
    ⟨0, HttpOutcome.failed "x", HttpOutcome.failed "x", HttpOutcome.failed "x", 0⟩

/-- Witness for C8 at a concrete environment. -/
theorem C8_gate_wholesale_witness :
    initialAppState.preflight_passed = false ∧
    initialAppState.diagnostics = none ∧
    ∃ rep, (run_diagnostics initialAppState
        ⟨0, HttpOutcome.response true none, HttpOutcome.failed "x",
         HttpOutcome.failed "x", 5⟩).1 = Except.ok rep ∧
      (run_diagnostics initialAppState
        ⟨0, HttpOutcome.response true none, HttpOutcome.failed "x",
         HttpOutcome.failed "x", 5⟩).2.preflight_passed = (rep.status == "OK") ∧
      (run_diagnostics initialAppState
        ⟨0, HttpOutcome.response true none, HttpOutcome.failed "x",
         HttpOutcome.failed "x", 5⟩).2.diagnostics = some rep :=
  C8_gate_wholesale initialAppState
    ⟨0, HttpOutcome.response true none, HttpOutcome.failed "x",
     HttpOutcome.failed "x", 5⟩
